import Mathlib

/-!
Shallow embedding of the SentinAI NetGuard security-dashboard hook
(`src/frontend/src/hooks/useAuth.js`, the `useSecurityDashboard` hook).
The file holds several revisions of the hook; line numbers in the comments
below refer to the concatenated file.  JavaScript numbers that hold risk
scores and counts are modelled as `Int`; JS objects used as ordered maps
(`riskCounts`, `typeCounts`) are modelled as association lists in insertion
order; absent / falsy string fields are modelled as the empty string.
React state setters become functional updates on an explicit record of the
hook's state containers; `await`ed network calls become explicit
`Except`-valued outcome parameters; the `isMounted` ref becomes a `mounted`
flag carried next to the dashboard state.
-/

/-- One threat event as delivered by the backend (fields the hook reads). -/
structure ThreatEvent where
  id : Nat
  timestamp : String
  source_ip : String
  predicted_label : String
  risk_score : Int
  status : String
deriving Repr, DecidableEq

/-- One `{name, value}` entry of `riskStats` / `attackTypes`. -/
structure NamedCount where
  name : String
  value : Int
deriving Repr, DecidableEq

/-- The `{type, message}` object passed to `setAlert`. -/
structure AlertMsg where
  type : String
  message : String
deriving Repr, DecidableEq

/-- The hook's state containers (lines 86-97).  `metrics`, `history` and
`features` are carried by no claim and are omitted. -/
structure DashState where
  threats : List ThreatEvent
  riskStats : List NamedCount
  attackTypes : List NamedCount
  criticalAlerts : List ThreatEvent
  highRiskCount : Int
  loading : Bool
  alert : Option AlertMsg
deriving Repr, DecidableEq

/-- Initial values of the state containers (lines 86-97): empty lists,
`highRiskCount` 0, `loading` true, no alert. -/
def initialDash : DashState :=
  { threats := [], riskStats := [], attackTypes := [], criticalAlerts := [],
    highRiskCount := 0, loading := true, alert := none }

/-- Bucket name chosen by the push handler (lines 245-247):
`risk_score >= 80 ? 'Critical' : risk_score >= 60 ? 'High' : risk_score >= 30 ? 'Medium' : 'Low'`. -/
def riskBucketName (score : Int) : String :=
  if score ≥ 80 then "Critical"
  else if score ≥ 60 then "High"
  else if score ≥ 30 then "Medium"
  else "Low"

/-- The `setRiskStats` updater of the push handler (lines 243-251):
`newStats.findIndex(s => s.name === key)` followed by `newStats[idx].value++`
when `idx >= 0` increments the first entry whose name matches `key` and
leaves the list unchanged when no entry matches. -/
def incFirst (key : String) : List NamedCount → List NamedCount
  | [] => []
  | c :: rest =>
      if c.name = key then { c with value := c.value + 1 } :: rest
      else c :: incFirst key rest

/-- Body of the `THREAT_DETECTED` branch of `socket.onmessage`
(lines 230-257): sets the alert pop unconditionally, prepends the threat,
increments the first matching risk bucket, and bumps `highRiskCount` when
`risk_score >= 60`.  `attackTypes` and `criticalAlerts` are not touched. -/
def applyPush (threat : ThreatEvent) (st : DashState) : DashState :=
  { st with
    alert := some
      { type := if threat.risk_score ≥ 80 then "critical" else "warning",
        message := "Active Threat Detected: " ++ threat.predicted_label
          ++ " (" ++ threat.source_ip ++ ")" },
    threats := threat :: st.threats,
    riskStats := incFirst (riskBucketName threat.risk_score) st.riskStats,
    highRiskCount :=
      if threat.risk_score ≥ 60 then st.highRiskCount + 1 else st.highRiskCount }

/-- A parsed WebSocket message (`JSON.parse(event.data)`, line 229);
messages that fail to parse are dropped by the surrounding try/catch and
never reach the state updates, so only parsed messages are modelled. -/
structure WsMessage where
  type : String
  data : ThreatEvent
deriving Repr, DecidableEq

/-- The `socket.onmessage` handler (lines 227-261): only messages with
`type === 'THREAT_DETECTED'` change state. -/
def onMessage (m : WsMessage) (st : DashState) : DashState :=
  if m.type = "THREAT_DETECTED" then applyPush m.data st else st

set_option linter.unusedVariables false in
/-- Handler installed by the `useEffect` body (lines 210-271).  The effect
re-runs for every value of `dateFilter`, and the handler it assigns to
`socket.onmessage` never reads `dateFilter`. -/
def installedHandler (dateFilter : Option String) : WsMessage → DashState → DashState :=
  fun m st => onMessage m st

/-- The payload destructured from `GET /dashboard/summary` (lines 110-118);
missing keys default to empty lists.  `metrics`, `history`, `features` are
omitted as above. -/
structure SummaryPayload where
  threats : List ThreatEvent
  risk_summary : List NamedCount
  attack_types : List NamedCount
  critical_alerts : List ThreatEvent
deriving Repr, DecidableEq

/-- Application of the summary payload to the state containers
(lines 122-128). -/
def applySummaryFields (p : SummaryPayload) (d : DashState) : DashState :=
  { d with
    threats := p.threats,
    riskStats := p.risk_summary,
    attackTypes := p.attack_types,
    criticalAlerts := p.critical_alerts }

/-- `risk_summary.find(s => s.name === key)?.value || 0` (lines 172-173);
`|| 0` maps an absent entry (and a falsy stored 0) to 0. -/
def findValue (stats : List NamedCount) (key : String) : Int :=
  match stats.find? (fun c => c.name == key) with
  | some c => c.value
  | none => 0

/-- The mutable `riskCounts` object of the filtered recompute
(line 142): four counters in insertion order Critical, High, Medium, Low. -/
structure RiskCounts where
  critical : Int
  high : Int
  medium : Int
  low : Int
deriving Repr, DecidableEq

/-- One iteration of the `filteredThreats.forEach` risk classification
(lines 145-151 and, identically, 393-399): the if/else-if chain increments
exactly one of the four counters. -/
def bucketStep (rc : RiskCounts) (t : ThreatEvent) : RiskCounts :=
  if t.risk_score ≥ 80 then { rc with critical := rc.critical + 1 }
  else if t.risk_score ≥ 60 then { rc with high := rc.high + 1 }
  else if t.risk_score ≥ 30 then { rc with medium := rc.medium + 1 }
  else { rc with low := rc.low + 1 }

/-- The whole risk-bucket aggregation of the filtered recompute: a left
fold of `bucketStep` starting from all-zero counters (line 142).  It is a
total function: the empty list yields the all-zero record. -/
def bucketize (events : List ThreatEvent) : RiskCounts :=
  events.foldl bucketStep { critical := 0, high := 0, medium := 0, low := 0 }

/-- Sum of the four bucket counters. -/
def sumRC (rc : RiskCounts) : Int :=
  rc.critical + rc.high + rc.medium + rc.low

/-- Label selection of the filtered recompute (line 154):
`t.predicted_label || t.label || 'Unknown'`; a falsy (missing / empty)
label is modelled as the empty string and falls back to `"Unknown"`. -/
def labelOf (t : ThreatEvent) : String :=
  if t.predicted_label = "" then "Unknown" else t.predicted_label

/-- One iteration of `typeCounts[label] = (typeCounts[label] || 0) + 1`
(line 155) on a JS object kept as an insertion-ordered association list:
increment the first matching entry, or append a fresh entry at the end. -/
def incOrAppend (label : String) : List NamedCount → List NamedCount
  | [] => [{ name := label, value := 1 }]
  | c :: rest =>
      if c.name = label then { c with value := c.value + 1 } :: rest
      else c :: incOrAppend label rest

/-- The attack-type tally of the filtered recompute (lines 143-156). -/
def tallyByLabel (events : List ThreatEvent) : List NamedCount :=
  events.foldl (fun acc t => incOrAppend (labelOf t) acc) []

/-- `Object.keys(riskCounts).map(k => ({name: k, value: riskCounts[k]}))`
(line 158): the four counters in insertion order. -/
def statsOfCounts (rc : RiskCounts) : List NamedCount :=
  [{ name := "Critical", value := rc.critical },
   { name := "High", value := rc.high },
   { name := "Medium", value := rc.medium },
   { name := "Low", value := rc.low }]

/-- Application of a successful filtered fetch to the state containers
(lines 139-163): replace the threats, recompute both aggregations
client-side, keep only `risk_score >= 80` as critical alerts, and set
`highRiskCount` to Critical + High of the filtered counts. -/
def applyFilteredFields (filteredThreats : List ThreatEvent) (d : DashState) : DashState :=
  let rc := bucketize filteredThreats
  { d with
    threats := filteredThreats,
    riskStats := statsOfCounts rc,
    attackTypes := tallyByLabel filteredThreats,
    criticalAlerts := filteredThreats.filter (fun t => decide (t.risk_score ≥ 80)),
    highRiskCount := rc.critical + rc.high }

/-- The hook's state together with the `isMounted` ref (lines 100-101).
`isMounted` starts `true` when the hook instance is created and is set to
`false` by every effect cleanup; nothing ever resets it to `true`. -/
structure Session where
  dash : DashState
  mounted : Bool
deriving Repr, DecidableEq

/-- Session at hook creation. -/
def initialSession : Session :=
  { dash := initialDash, mounted := true }

/-- One complete `synchronizeTelemetry()` invocation (lines 103-186) with
its two awaited network calls passed in as explicit outcomes.  The outer
catch (lines 180-185) sets the retry alert; the early return on
`!isMounted.current` (line 120) skips every state update; the filtered
branch (lines 131-169) runs its own try/catch, so a filtered-fetch failure
only sets the `Filter failed` alert and never reaches the outer catch; the
`finally` (lines 183-185) clears `loading` on every path, including the
early return and both catches. -/
def synchronizeTelemetry (dateFilter : Option String)
    (summaryOutcome : Except String SummaryPayload)
    (filteredOutcome : Except String (List ThreatEvent))
    (s : Session) : Session :=
  match summaryOutcome with
  | .error _ =>
      { s with dash := { s.dash with
          alert := some { type := "error", message := "Connection lost. Retrying..." },
          loading := false } }
  | .ok payload =>
      if s.mounted = false then
        { s with dash := { s.dash with loading := false } }
      else
        let d1 := applySummaryFields payload s.dash
        match dateFilter with
        | none =>
            { s with dash := { d1 with
                highRiskCount :=
                  findValue payload.risk_summary "Critical"
                    + findValue payload.risk_summary "High",
                loading := false } }
        | some _ =>
            match filteredOutcome with
            | .error msg =>
                { s with dash := { d1 with
                    alert := some { type := "error", message := "Filter failed: " ++ msg },
                    loading := false } }
            | .ok filteredThreats =>
                { s with dash := { applyFilteredFields filteredThreats d1 with
                    loading := false } }

/-- Asynchronous steps of the controller, used to replay interleavings of
user filter changes and network responses.
`windowChange` is the effect cleanup plus re-run that a change of
`dateFilter` triggers (lines 267-271): the cleanup sets
`isMounted.current = false` and the re-run issues a new
`synchronizeTelemetry()` whose responses arrive as later steps.
`summaryArrive df p` is the resolution of the summary fetch of an
invocation issued while the filter was `df` (lines 106-175): blocked by the
line-120 guard when `mounted` is false (the `finally` still clears
`loading`), otherwise the payload is applied; with a filter set the
invocation now awaits the filtered fetch, whose resolution is a separate
`filteredArrive` step; with no filter it finishes, setting `highRiskCount`
and clearing `loading`.
`filteredArrive o` is the resolution of that filtered fetch
(lines 134-169 plus the `finally`); the code guards it with no mounted
check. -/
inductive SyncStep where
  | windowChange
  | summaryArrive (dateFilter : Option String) (payload : SummaryPayload)
  | filteredArrive (outcome : Except String (List ThreatEvent))
deriving Repr

/-- Effect of one asynchronous step on the session, each case translated
from the lines cited on `SyncStep`. -/
def stepSync (s : Session) : SyncStep → Session
  | .windowChange => { s with mounted := false }
  | .summaryArrive df payload =>
      if s.mounted = false then
        { s with dash := { s.dash with loading := false } }
      else
        let d1 := applySummaryFields payload s.dash
        match df with
        | none =>
            { s with dash := { d1 with
                highRiskCount :=
                  findValue payload.risk_summary "Critical"
                    + findValue payload.risk_summary "High",
                loading := false } }
        | some _ => { s with dash := d1 }
  | .filteredArrive outcome =>
      match outcome with
      | .ok filteredThreats =>
          { s with dash := { applyFilteredFields filteredThreats s.dash with
              loading := false } }
      | .error msg =>
          { s with dash := { s.dash with
              alert := some { type := "error", message := "Filter failed: " ++ msg },
              loading := false } }

/-- Replay of a sequence of asynchronous steps from a session. -/
def runTrace (steps : List SyncStep) (s : Session) : Session :=
  steps.foldl stepSync s

/-- The `resolveThreat(id)` action (lines 188-199).  The code first awaits
`POST /threats/id/resolve` and only then runs the local updates, so the
updates are modelled as conditional on the call's outcome `callOk`: on
success the matching threat's status is mapped to `Resolved`, the id is
filtered out of `criticalAlerts` and a success alert is set; on failure
only an error alert is set and no local state changes. -/
def resolveThreat (id : Nat) (callOk : Bool) (st : DashState) : DashState :=
  if callOk then
    { st with
      threats := st.threats.map (fun t =>
        if t.id = id then { t with status := "Resolved" } else t),
      criticalAlerts := st.criticalAlerts.filter (fun t => t.id != id),
      alert := some { type := "success", message := "Incident marked as resolved." } }
  else
    { st with alert := some { type := "error", message := "Failed to resolve threat." } }

/-- The four values of a browser WebSocket `readyState`. -/
inductive WsReadyState where
  | CONNECTING
  | OPEN
  | CLOSING
  | CLOSED
deriving Repr, DecidableEq

/-- Guard of the fallback polling interval (lines 517-521):
`document.visibilityState === 'visible' && socket.readyState !== WebSocket.OPEN`;
a tick calls `synchronizeTelemetry()` exactly when this returns true. -/
def fallbackTick (visibilityState : String) (readyState : WsReadyState) : Bool :=
  visibilityState == "visible" && readyState != WsReadyState.OPEN

/-- Resources owned by the effect of lines 467-527: the fallback interval
and the WebSocket. -/
structure ConnResources where
  intervalActive : Bool
  socketState : WsReadyState
deriving Repr, DecidableEq

set_option linter.unusedVariables false in
/-- The effect cleanup (lines 523-526): `clearInterval(interval)` cancels
the fallback timer and `socket.close()` closes the channel. -/
def teardown (c : ConnResources) : ConnResources :=
  { intervalActive := false, socketState := WsReadyState.CLOSED }

/-- Sample event with a risk score below the Warning threshold. -/
def evPortScan45 : ThreatEvent :=
  { id := 2, timestamp := "t2", source_ip := "9.9.9.9",
    predicted_label := "Port Scan", risk_score := 45, status := "Active" }

/-- Sample event in the Critical bucket. -/
def evDDoS92 : ThreatEvent :=
  { id := 3, timestamp := "t3", source_ip := "8.8.8.8",
    predicted_label := "DDoS", risk_score := 92, status := "Active" }

/-- Sample event with status Active, used for the resolve scenario. -/
def evActive1 : ThreatEvent :=
  { id := 1, timestamp := "t1", source_ip := "7.7.7.7",
    predicted_label := "Brute Force", risk_score := 85, status := "Active" }

/-- Sample event with an arbitrary fixed score. -/
def evScore (s : Int) : ThreatEvent :=
  { id := 0, timestamp := "", source_ip := "",
    predicted_label := "", risk_score := s, status := "Active" }

/-- Dashboard state holding one Active event in the threats list and in the
critical alerts. -/
def stC4 : DashState :=
  { threats := [evActive1],
    riskStats := [⟨"Critical", 1⟩, ⟨"High", 0⟩, ⟨"Medium", 0⟩, ⟨"Low", 0⟩],
    attackTypes := [⟨"Brute Force", 1⟩],
    criticalAlerts := [evActive1],
    highRiskCount := 1, loading := false, alert := none }

/-- Dashboard state with the four canonical buckets and one attack-type
entry, used to exercise a push. -/
def stC6 : DashState :=
  { threats := [],
    riskStats := [⟨"Critical", 0⟩, ⟨"High", 0⟩, ⟨"Medium", 0⟩, ⟨"Low", 0⟩],
    attackTypes := [⟨"DDoS", 1⟩],
    criticalAlerts := [],
    highRiskCount := 0, loading := false, alert := none }

/-- Each bucket step adds exactly one to the total of the four counters. -/
theorem sumRC_bucketStep (rc : RiskCounts) (t : ThreatEvent) :
    sumRC (bucketStep rc t) = sumRC rc + 1 := by
  unfold bucketStep sumRC
  split_ifs <;> simp <;> ring

/-- Folding bucket steps over a list adds the list's length to the total. -/
theorem sumRC_foldl (events : List ThreatEvent) :
    ∀ rc : RiskCounts, sumRC (events.foldl bucketStep rc) = sumRC rc + events.length := by
  induction events with
  | nil => intro rc; simp
  | cons t ts ih =>
      intro rc
      simp only [List.foldl_cons, ih, sumRC_bucketStep, List.length_cons]
      push_cast
      ring

/-- C7: the risk bucketization assigns each event to exactly one of the four
buckets, the four counts sum to the number of events, the boundary scores
80, 60, 30 go to the higher bucket, and the empty list yields all zeros. -/
theorem claim_C7_bucketize (events : List ThreatEvent) :
    sumRC (bucketize events) = events.length ∧
    (∀ (t : ThreatEvent) (rc : RiskCounts),
      bucketStep rc t = { rc with critical := rc.critical + 1 } ∨
      bucketStep rc t = { rc with high := rc.high + 1 } ∨
      bucketStep rc t = { rc with medium := rc.medium + 1 } ∨
      bucketStep rc t = { rc with low := rc.low + 1 }) ∧
    bucketize [] = { critical := 0, high := 0, medium := 0, low := 0 } ∧
    bucketize [evScore 80] = { critical := 1, high := 0, medium := 0, low := 0 } ∧
    bucketize [evScore 60] = { critical := 0, high := 1, medium := 0, low := 0 } ∧
    bucketize [evScore 30] = { critical := 0, high := 0, medium := 1, low := 0 } := by
  refine ⟨?_, ?_, by decide, by decide, by decide, by decide⟩
  · have h := sumRC_foldl events { critical := 0, high := 0, medium := 0, low := 0 }
    simpa [bucketize, sumRC] using h
  · intro t rc
    unfold bucketStep
    split_ifs with h1 h2 h3
    · exact Or.inl rfl
    · exact Or.inr (Or.inl rfl)
    · exact Or.inr (Or.inr (Or.inl rfl))
    · exact Or.inr (Or.inr (Or.inr rfl))

/-- C2 counterexample: pushing the same event (same id) twice does not
leave the state identical to pushing it once — the threats list differs. -/
theorem claim_C2_counterexample :
    (applyPush evPortScan45 (applyPush evPortScan45 initialDash)).threats ≠
      (applyPush evPortScan45 initialDash).threats := by
  decide

/-- C2 amended: push application is not deduplicated by id: applying the
same pushed event twice prepends a second copy, so the list grows by two
entries instead of one. -/
theorem claim_C2_amended (e : ThreatEvent) (st : DashState) :
    (applyPush e (applyPush e st)).threats = e :: e :: st.threats ∧
    (applyPush e (applyPush e st)).threats.length = st.threats.length + 2 := by
  simp [applyPush]

/-- C3 counterexample: a pushed event with risk score 45 does raise a
notification — of type warning — where the claim demands none at all. -/
theorem claim_C3_counterexample :
    (applyPush evPortScan45 initialDash).alert ≠ none ∧
    (applyPush evPortScan45 initialDash).alert =
      some { type := "warning",
             message := "Active Threat Detected: Port Scan (9.9.9.9)" } := by
  constructor
  · decide
  · decide

/-- C3 amended: the push handler raises a notification for every pushed
event, with severity critical when the risk score is at least 80 and
warning otherwise — including scores below 60. -/
theorem claim_C3_amended (e : ThreatEvent) (st : DashState) :
    (applyPush e st).alert =
      some { type := if e.risk_score ≥ 80 then "critical" else "warning",
             message := "Active Threat Detected: " ++ e.predicted_label
               ++ " (" ++ e.source_ip ++ ")" } := by
  simp [applyPush]

/-- C5 counterexample: with an explicit time-window filter active, a pushed
event still changes the canonical threats list. -/
theorem claim_C5_counterexample :
    (installedHandler (some "2025-03-01")
        { type := "THREAT_DETECTED", data := evDDoS92 } initialDash).threats ≠
      initialDash.threats := by
  decide

/-- C5 amended: the installed message handler never consults the
time-window filter: it behaves identically with and without a filter, and a
pushed THREAT_DETECTED event is always prepended to the threats list. -/
theorem claim_C5_amended (d : String) (e : ThreatEvent) (m : WsMessage) (st : DashState) :
    installedHandler (some d) m st = installedHandler none m st ∧
    (installedHandler (some d)
        { type := "THREAT_DETECTED", data := e } st).threats = e :: st.threats := by
  constructor
  · rfl
  · simp [installedHandler, onMessage, applyPush]

/-- C6 counterexample: an accepted push does not increment the event's
predicted-label entry in the attack-type counts — the DDoS entry stays at
1 instead of moving to 2. -/
theorem claim_C6_counterexample :
    (applyPush evDDoS92 stC6).attackTypes = [⟨"DDoS", 1⟩] ∧
    (applyPush evDDoS92 stC6).attackTypes ≠ [⟨"DDoS", 2⟩] := by
  constructor
  · decide
  · decide

/-- C6 amended: an accepted pushed event is prepended at the head, exactly
the risk bucket matching its risk score is incremented by one in the
canonical four-bucket risk stats, and the event is forwarded to the alert
slot; the attack-type counts are left unchanged by a push. -/
theorem claim_C6_amended (e : ThreatEvent) (st : DashState) (c h m l : Int)
    (hrs : st.riskStats = [⟨"Critical", c⟩, ⟨"High", h⟩, ⟨"Medium", m⟩, ⟨"Low", l⟩]) :
    (applyPush e st).threats = e :: st.threats ∧
    (applyPush e st).attackTypes = st.attackTypes ∧
    ((applyPush e st).alert).isSome = true ∧
    (applyPush e st).riskStats =
      [⟨"Critical", c + (if riskBucketName e.risk_score = "Critical" then 1 else 0)⟩,
       ⟨"High", h + (if riskBucketName e.risk_score = "High" then 1 else 0)⟩,
       ⟨"Medium", m + (if riskBucketName e.risk_score = "Medium" then 1 else 0)⟩,
       ⟨"Low", l + (if riskBucketName e.risk_score = "Low" then 1 else 0)⟩] := by
  refine ⟨by simp [applyPush], by simp [applyPush], by simp [applyPush], ?_⟩
  simp only [applyPush, hrs]
  by_cases h80 : e.risk_score ≥ 80
  · simp [riskBucketName, h80, incFirst]
  · by_cases h60 : e.risk_score ≥ 60
    · simp [riskBucketName, h80, h60, incFirst]
    · by_cases h30 : e.risk_score ≥ 30
      · simp [riskBucketName, h80, h60, h30, incFirst]
      · simp [riskBucketName, h80, h60, h30, incFirst]

/-- C6 amended, witnessed at a concrete Critical-bucket push on the
canonical four-bucket state. -/
theorem claim_C6_amended_witness :
    (applyPush evDDoS92 stC6).threats = evDDoS92 :: stC6.threats ∧
    (applyPush evDDoS92 stC6).attackTypes = stC6.attackTypes ∧
    ((applyPush evDDoS92 stC6).alert).isSome = true ∧
    (applyPush evDDoS92 stC6).riskStats =
      [⟨"Critical", 0 + (if riskBucketName evDDoS92.risk_score = "Critical" then 1 else 0)⟩,
       ⟨"High", 0 + (if riskBucketName evDDoS92.risk_score = "High" then 1 else 0)⟩,
       ⟨"Medium", 0 + (if riskBucketName evDDoS92.risk_score = "Medium" then 1 else 0)⟩,
       ⟨"Low", 0 + (if riskBucketName evDDoS92.risk_score = "Low" then 1 else 0)⟩] :=
  claim_C6_amended evDDoS92 stC6 0 0 0 0 rfl


/-- C4: the claim says `resolveIncident` mutates local state optimistically
— before the external call returns — and keeps the mutation on failure.
In the code the local updates sit after the awaited POST: when the call
fails, the catch only sets an error alert and the event keeps its Active
status and its place in the critical alerts.  This theorem evaluates the
model at that failing input. -/
theorem claim_C4_code_bug :
    (resolveThreat 1 false stC4).threats = [evActive1] ∧
    ((resolveThreat 1 false stC4).threats.map ThreatEvent.status) = ["Active"] ∧
    (resolveThreat 1 false stC4).criticalAlerts = [evActive1] ∧
    (resolveThreat 1 false stC4).alert =
      some { type := "error", message := "Failed to resolve threat." } := by
  refine ⟨by decide, by decide, by decide, by decide⟩

/-- Summary payload of the initial unfiltered load in the window-change
scenario. -/
def payload0 : SummaryPayload :=
  { threats := [evScore 10],
    risk_summary := [⟨"Critical", 0⟩, ⟨"High", 0⟩, ⟨"Medium", 0⟩, ⟨"Low", 1⟩],
    attack_types := [⟨"Normal", 1⟩],
    critical_alerts := [] }

/-- Summary payload delivered for the first window change W1. -/
def payloadW1 : SummaryPayload :=
  { threats := [evActive1],
    risk_summary := [⟨"Critical", 1⟩, ⟨"High", 0⟩, ⟨"Medium", 0⟩, ⟨"Low", 0⟩],
    attack_types := [⟨"Brute Force", 1⟩],
    critical_alerts := [evActive1] }

/-- Summary payload delivered for the second window change W2. -/
def payloadW2 : SummaryPayload :=
  { threats := [evDDoS92],
    risk_summary := [⟨"Critical", 1⟩, ⟨"High", 0⟩, ⟨"Medium", 0⟩, ⟨"Low", 0⟩],
    attack_types := [⟨"DDoS", 1⟩],
    critical_alerts := [evDDoS92] }

/-- Interleaving of the C1 scenario: the initial unfiltered sync resolves
and is applied; the user sets window W1 (effect cleanup flips the mounted
ref and a new sync is issued) and then window W2 before W1's fetch
resolves; W2's summary response arrives first and W1's stale response
arrives last — exactly the ordering the claim quantifies over. -/
def traceC1 : List SyncStep :=
  [ .summaryArrive none payload0,
    .windowChange,
    .windowChange,
    .summaryArrive (some "2025-03-02") payloadW2,
    .summaryArrive (some "2025-03-01") payloadW1 ]

/-- C1: the claim says the controller must end up showing W2's result.
Replaying the scenario on the code: the effect cleanup run on each filter
change sets the `isMounted` ref to false and nothing ever resets it, so
the line-120 guard drops W1's stale response and W2's own response alike;
the final displayed threats are still those of the initial unfiltered load
and differ from W2's result. -/
theorem claim_C1_code_bug :
    (runTrace traceC1 initialSession).dash.threats = payload0.threats ∧
    (runTrace traceC1 initialSession).dash.threats ≠ payloadW2.threats := by
  refine ⟨by decide, by decide⟩

/-- C8 counterexample: when the initial pull fails, the `finally` clause
still clears the loading flag, so the session does transition out of the
loading state with no data ever displayed — which the claim rules out. -/
theorem claim_C8_counterexample :
    (synchronizeTelemetry none (.error "network down") (.error "unused")
        initialSession).dash.loading = false ∧
    (synchronizeTelemetry none (.error "network down") (.error "unused")
        initialSession).dash.threats = [] := by
  refine ⟨by decide, by decide⟩

/-- C8 amended: a failed pull surfaces the retry notification and leaves
the previously displayed data untouched, but the `finally` clause clears
the loading flag even on failure, so a failed initial pull leaves the
dashboard rendered as an empty non-loading view; no retry is scheduled by
this code path itself. -/
theorem claim_C8_amended (df : Option String) (err : String)
    (fo : Except String (List ThreatEvent)) (s : Session) :
    (synchronizeTelemetry df (.error err) fo s).dash.alert =
      some { type := "error", message := "Connection lost. Retrying..." } ∧
    (synchronizeTelemetry df (.error err) fo s).dash.loading = false ∧
    (synchronizeTelemetry df (.error err) fo s).dash.threats = s.dash.threats ∧
    (synchronizeTelemetry df (.error err) fo s).dash.riskStats = s.dash.riskStats := by
  simp [synchronizeTelemetry]

/-- C9: a fallback tick issues a pull only if the push channel is not
currently OPEN, and session teardown cancels the fallback timer and closes
the channel. -/
theorem claim_C9_fallback (v : String) (rs : WsReadyState) (c : ConnResources)
    (h : fallbackTick v rs = true) :
    rs ≠ WsReadyState.OPEN ∧
    (teardown c).intervalActive = false ∧
    (teardown c).socketState = WsReadyState.CLOSED := by
  refine ⟨?_, rfl, rfl⟩
  intro hrs
  subst hrs
  simp [fallbackTick] at h

/-- C9 witnessed at a visible page with a CLOSED socket, tearing down an
open connection with an active timer. -/
theorem claim_C9_fallback_witness :
    WsReadyState.CLOSED ≠ WsReadyState.OPEN ∧
    (teardown { intervalActive := true, socketState := WsReadyState.OPEN }).intervalActive = false ∧
    (teardown { intervalActive := true, socketState := WsReadyState.OPEN }).socketState =
      WsReadyState.CLOSED :=
  claim_C9_fallback "visible" WsReadyState.CLOSED
    { intervalActive := true, socketState := WsReadyState.OPEN } (by decide)

/-- C10: when the filtered fetch fails after a successful summary fetch on
a mounted session, the state containers keep exactly the just-applied
summary values, the only addition is the error notification carrying the
failure detail, and the whole invocation returns normally (the model is a
total function: the inner catch keeps the failure away from the outer
catch). -/
theorem claim_C10_filter_failure (df : String) (payload : SummaryPayload)
    (msg : String) (s : Session) (h : s.mounted = true) :
    (synchronizeTelemetry (some df) (.ok payload) (.error msg) s).dash.threats =
      payload.threats ∧
    (synchronizeTelemetry (some df) (.ok payload) (.error msg) s).dash.riskStats =
      payload.risk_summary ∧
    (synchronizeTelemetry (some df) (.ok payload) (.error msg) s).dash.attackTypes =
      payload.attack_types ∧
    (synchronizeTelemetry (some df) (.ok payload) (.error msg) s).dash.criticalAlerts =
      payload.critical_alerts ∧
    (synchronizeTelemetry (some df) (.ok payload) (.error msg) s).dash.alert =
      some { type := "error", message := "Filter failed: " ++ msg } ∧
    (synchronizeTelemetry (some df) (.ok payload) (.error msg) s).dash.loading = false := by
  simp [synchronizeTelemetry, h, applySummaryFields]

/-- C10 witnessed at a concrete mounted session with a concrete payload and
failure detail. -/
theorem claim_C10_filter_failure_witness :
    (synchronizeTelemetry (some "2025-03-01") (.ok payloadW2) (.error "boom")
        initialSession).dash.threats = payloadW2.threats ∧
    (synchronizeTelemetry (some "2025-03-01") (.ok payloadW2) (.error "boom")
        initialSession).dash.riskStats = payloadW2.risk_summary ∧
    (synchronizeTelemetry (some "2025-03-01") (.ok payloadW2) (.error "boom")
        initialSession).dash.attackTypes = payloadW2.attack_types ∧
    (synchronizeTelemetry (some "2025-03-01") (.ok payloadW2) (.error "boom")
        initialSession).dash.criticalAlerts = payloadW2.critical_alerts ∧
    (synchronizeTelemetry (some "2025-03-01") (.ok payloadW2) (.error "boom")
        initialSession).dash.alert =
      some { type := "error", message := "Filter failed: " ++ "boom" } ∧
    (synchronizeTelemetry (some "2025-03-01") (.ok payloadW2) (.error "boom")
        initialSession).dash.loading = false :=
  claim_C10_filter_failure "2025-03-01" payloadW2 "boom" initialSession rfl
